import Mathlib

/-!
Verification development for the email-campaign delivery subsystem of the
Hsinvest repository (`newsletter/models.py`, `newsletter/services.py`).

The Python source is shallowly embedded: Django model rows become Lean
structures, querysets become lists, the database becomes an explicit `DB`
record that operations thread through, and Python exceptions become
`Except String` values that the service-level wrappers catch, mirroring the
`try`/`except` blocks of `NewsletterService`.  The outcome of the two
external effects of a delivery (the transport `email.send()` call and the
`NewsletterActivity.objects.create` ledger write) is supplied by a
`DeliveryEnv` oracle keyed by recipient address, so that partial-failure
behaviour can be reasoned about for every possible pattern of failures.
Subscriber primary keys are `Option Nat` (`none` for an instance never
saved, Django `pk is None`), because the ORM's refusal to create an
activity row whose foreign-key target is unsaved decides the behaviour of
the test-email path.
-/

/-- Embedding of `newsletter.models.NewsletterSubscriber` (the fields the
campaign engine reads or writes).  `id` is the primary key, `none` while the
instance has not been saved to the database (Django `pk is None`);
`subscription_interests` holds the ids of the blog categories the subscriber
is interested in. -/
structure NewsletterSubscriber where
  id : Option Nat
  email : String
  first_name : String := ""
  last_name : String := ""
  status : String := "active"
  is_verified : Bool := false
  subscription_interests : List Nat := []
  total_emails_sent : Nat := 0
  deriving Repr, DecidableEq

/-- Embedding of `newsletter.models.EmailCampaign` (the fields the campaign
engine reads or writes).  `target_categories` holds category ids,
`target_subscribers` holds the primary keys of the targeted subscribers
(persisted rows, so in practice `some` values); `sent_at` is an abstract
timestamp, `none` while unsent. -/
structure EmailCampaign where
  id : Nat
  name : String
  subject : String := ""
  status : String := "draft"
  send_to_all : Bool := true
  target_categories : List Nat := []
  target_subscribers : List (Option Nat) := []
  total_recipients : Nat := 0
  total_sent : Nat := 0
  total_delivered : Nat := 0
  total_opened : Nat := 0
  total_clicked : Nat := 0
  total_unsubscribed : Nat := 0
  sent_at : Option Nat := none
  deriving Repr, DecidableEq

/-- Embedding of `newsletter.models.NewsletterActivity`.  The subscriber
foreign key is represented by the subscriber's unique email address (the
model's natural key); only persisted subscribers can ever be referenced,
since Django refuses to save a row whose foreign-key target has no primary
key. -/
structure NewsletterActivity where
  subscriber_email : String
  campaign_id : Nat
  activity_type : String
  email_subject : String := ""
  description : String := ""
  deriving Repr, DecidableEq

/-- The persistent state the campaign engine touches: the subscriber table,
the campaign table and the append-only activity ledger. -/
structure DB where
  subscribers : List NewsletterSubscriber
  campaigns : List EmailCampaign
  ledger : List NewsletterActivity
  deriving Repr, DecidableEq

/-- Oracle for the two effectful steps of `_send_email_to_subscriber`,
keyed by the recipient address: whether the transport send succeeds and
whether the ledger write succeeds for that recipient. -/
structure DeliveryEnv where
  transportOk : String → Bool
  ledgerOk : String → Bool

/-- Embedding of `NewsletterService._get_target_subscribers`
(`services.py:97-117`).  The base queryset filters on
`status='active', is_verified=True`; when `send_to_all` is false the two
targeting constraints are applied by two independent `if` statements:
`subscription_interests__in=target_categories` (any shared category,
`.distinct()` is a no-op on the duplicate-free list model) and then
`id__in=target_subscribers`. -/
def get_target_subscribers (subs : List NewsletterSubscriber)
    (campaign : EmailCampaign) : List NewsletterSubscriber :=
  let base := subs.filter (fun s => s.status == "active" && s.is_verified)
  if campaign.send_to_all then
    base
  else
    let afterCategories :=
      if campaign.target_categories.isEmpty then base
      else base.filter (fun s =>
        s.subscription_interests.any (fun i => campaign.target_categories.contains i))
    if campaign.target_subscribers.isEmpty then afterCategories
    else afterCategories.filter (fun s => campaign.target_subscribers.contains s.id)

/-- Python's `round` on an exact value: round half to even.  `models.py` uses
`round(x, 1)`; on the rational model the tie-breaking rule of CPython's
`round` is banker's rounding. -/
def roundHalfEven (q : ℚ) : ℤ :=
  if q - (⌊q⌋ : ℚ) < 1 / 2 then ⌊q⌋
  else if (1 : ℚ) / 2 < q - (⌊q⌋ : ℚ) then ⌊q⌋ + 1
  else if ⌊q⌋ % 2 = 0 then ⌊q⌋ else ⌊q⌋ + 1

/-- `round(x, 1)` of `models.py`, on rationals: one decimal place. -/
def round1 (q : ℚ) : ℚ := (roundHalfEven (q * 10) : ℚ) / 10

/-- Embedding of `EmailCampaign.get_open_rate` (`models.py:198-201`). -/
def get_open_rate (c : EmailCampaign) : ℚ :=
  if c.total_sent > 0 then
    round1 ((c.total_opened : ℚ) / (c.total_sent : ℚ) * 100)
  else 0

/-- Embedding of `EmailCampaign.get_click_rate` (`models.py:203-206`). -/
def get_click_rate (c : EmailCampaign) : ℚ :=
  if c.total_sent > 0 then
    round1 ((c.total_clicked : ℚ) / (c.total_sent : ℚ) * 100)
  else 0

/-- Embedding of `EmailCampaign.get_unsubscribe_rate` (`models.py:208-211`). -/
def get_unsubscribe_rate (c : EmailCampaign) : ℚ :=
  if c.total_sent > 0 then
    round1 ((c.total_unsubscribed : ℚ) / (c.total_sent : ℚ) * 100)
  else 0

/-- Embedding of `EmailCampaign.get_delivery_rate` (`models.py:213-216`). -/
def get_delivery_rate (c : EmailCampaign) : ℚ :=
  if c.total_recipients > 0 then
    round1 ((c.total_delivered : ℚ) / (c.total_recipients : ℚ) * 100)
  else 0

/-- Modelled from the spec: a counter ratio "expressed as a percentage
rounded to one decimal place, with 0 when the denominator is zero"
(spec §4.5).  Used as the specification side of the metrics refinement. -/
def specRatePercent (num den : Nat) : ℚ :=
  if den = 0 then 0 else round1 ((num : ℚ) / (den : ℚ) * 100)

/-- The `email_sent` `NewsletterActivity` row created at
`services.py:143-149` for a delivery of `campaign` to `subscriber`. -/
def mkActivity (campaign : EmailCampaign) (subscriber : NewsletterSubscriber) :
    NewsletterActivity :=
  { subscriber_email := subscriber.email
    campaign_id := campaign.id
    activity_type := "email_sent"
    email_subject := campaign.subject
    description := "Email sent for campaign: " ++ campaign.name }

/-- Embedding of `NewsletterService._send_email_to_subscriber`
(`services.py:119-153`): attempt the transport send, then create the
`email_sent` activity row; a failure of either step is re-raised to the
caller (`Except.error`).  `NewsletterActivity.objects.create` first raises
`ValueError` when its subscriber foreign-key target has no primary key
(Django refuses to save rows pointing at unsaved instances), before the
write itself — whose outcome the oracle decides — is attempted.  On success
the extended ledger is returned. -/
def send_email_to_subscriber (env : DeliveryEnv) (ledger : List NewsletterActivity)
    (campaign : EmailCampaign) (subscriber : NewsletterSubscriber) :
    Except String (List NewsletterActivity) :=
  if env.transportOk subscriber.email then
    match subscriber.id with
    | some _ =>
      if env.ledgerOk subscriber.email then
        Except.ok (ledger ++ [mkActivity campaign subscriber])
      else
        Except.error ("Failed to log activity for " ++ subscriber.email)
    | none =>
      Except.error
        "save() prohibited to prevent data loss due to unsaved related object 'subscriber'."
  else
    Except.error ("Failed to send email to " ++ subscriber.email)

/-- The per-recipient loop of `send_campaign` (`services.py:39-51`): each
recipient is tried in turn; on success the sent counter is bumped and the
subscriber's `total_emails_sent` is incremented and saved; any exception is
logged and the loop continues.  Returns the updated copies of the targeted
subscribers (in order), the final ledger, and `sent_count`. -/
def sendLoop (env : DeliveryEnv) (campaign : EmailCampaign) :
    List NewsletterSubscriber → List NewsletterActivity → Nat →
    List NewsletterSubscriber × List NewsletterActivity × Nat
  | [], ledger, sent_count => ([], ledger, sent_count)
  | s :: rest, ledger, sent_count =>
    match send_email_to_subscriber env ledger campaign s with
    | Except.ok ledger2 =>
      let r := sendLoop env campaign rest ledger2 (sent_count + 1)
      ({ s with total_emails_sent := s.total_emails_sent + 1 } :: r.1, r.2.1, r.2.2)
    | Except.error _ =>
      let r := sendLoop env campaign rest ledger sent_count
      (s :: r.1, r.2.1, r.2.2)

/-- Writing the updated subscriber rows back into the subscriber table
(the `subscriber.save()` calls): rows are matched by primary key. -/
def saveSubscribers (table updated : List NewsletterSubscriber) :
    List NewsletterSubscriber :=
  table.map (fun s =>
    match updated.find? (fun u => u.id == s.id) with
    | some u => u
    | none => s)

/-- Writing an updated campaign row back into the campaign table
(the `campaign.save()` calls): rows are matched by primary key. -/
def saveCampaign (table : List EmailCampaign) (c : EmailCampaign) :
    List EmailCampaign :=
  table.map (fun x => if x.id == c.id then c else x)

/-- The result dictionary the service methods return: a `success` flag, a
`message`, and (on a successful campaign send) `sent_count` and
`total_recipients`. -/
structure SendResult where
  success : Bool
  message : String
  sent_count : Option Nat := none
  total_recipients : Option Nat := none
  deriving Repr, DecidableEq

/-- The message of the `ValueError` raised at `services.py:25` when the
campaign is not in draft status. -/
def invalidStateMsg (c : EmailCampaign) : String :=
  "Campaign " ++ c.name ++ " is not in draft status"

/-- The body of `NewsletterService.send_campaign` inside its `try` block
(`services.py:21-64`): look up the campaign (raising `DoesNotExist` when
absent), reject a non-draft status, resolve the audience, reject an empty
audience, mark the campaign `sending` with its recipient count, run the
per-recipient loop, then mark the campaign `sent` with the success count and
timestamp.  Exceptions escape as `Except.error`; they can only occur before
any state was written, so the error branch carries no state. -/
def send_campaign_body (env : DeliveryEnv) (db : DB) (now : Nat)
    (campaign_id : Nat) : Except String (SendResult × DB) :=
  match db.campaigns.find? (fun c => c.id == campaign_id) with
  | none => Except.error "Campaign not found"
  | some campaign =>
    if campaign.status != "draft" then
      Except.error (invalidStateMsg campaign)
    else
      let subscribers := get_target_subscribers db.subscribers campaign
      if subscribers.isEmpty then
        Except.error "No subscribers found for this campaign"
      else
        let c1 := { campaign with
                    status := "sending"
                    total_recipients := subscribers.length }
        let r := sendLoop env c1 subscribers db.ledger 0
        let c2 := { c1 with
                    status := "sent"
                    total_sent := r.2.2
                    sent_at := some now }
        Except.ok
          ({ success := true
             message := "Campaign sent to " ++ toString r.2.2 ++ " subscribers"
             sent_count := some r.2.2
             total_recipients := some c1.total_recipients },
           { subscribers := saveSubscribers db.subscribers r.1
             campaigns := saveCampaign (saveCampaign db.campaigns c1) c2
             ledger := r.2.1 })

/-- Embedding of `NewsletterService.send_campaign` (`services.py:19-70`):
the surrounding `try`/`except` turns every raised exception into a
`success = False` dictionary carrying the exception message, leaving the
database as the body left it (no write precedes a raise). -/
def send_campaign (env : DeliveryEnv) (db : DB) (now : Nat)
    (campaign_id : Nat) : SendResult × DB :=
  match send_campaign_body env db now campaign_id with
  | Except.ok r => r
  | Except.error msg => ({ success := false, message := msg }, db)

/-- The temporary, non-persisted subscriber built at `services.py:78-82`;
unset model fields keep their Django defaults (`status='active'`,
`is_verified=False`, zero counters); it is never saved, so it has no primary
key (`id = none`). -/
def test_subscriber (test_email : String) : NewsletterSubscriber :=
  { id := none
    email := test_email
    first_name := "Test"
    last_name := "User" }

/-- The body of `NewsletterService.send_test_email` inside its `try` block
(`services.py:74-89`): look up the campaign, build the temporary subscriber
and route it through `_send_email_to_subscriber`.  Because the temporary
subscriber is never saved, the activity creation inside that shared path
always raises, so the `Except.ok` branch is unreachable and nothing is ever
written. -/
def send_test_email_body (env : DeliveryEnv) (db : DB) (campaign_id : Nat)
    (test_email : String) : Except String (SendResult × DB) :=
  match db.campaigns.find? (fun c => c.id == campaign_id) with
  | none => Except.error "Campaign not found"
  | some campaign =>
    match send_email_to_subscriber env db.ledger campaign
        (test_subscriber test_email) with
    | Except.ok ledger2 =>
      Except.ok
        ({ success := true, message := "Test email sent to " ++ test_email },
         { db with ledger := ledger2 })
    | Except.error msg => Except.error msg

/-- Embedding of `NewsletterService.send_test_email` (`services.py:72-95`):
the surrounding `try`/`except` turns every raised exception into a
`success = False` dictionary carrying the exception message. -/
def send_test_email (env : DeliveryEnv) (db : DB) (campaign_id : Nat)
    (test_email : String) : SendResult × DB :=
  match send_test_email_body env db campaign_id test_email with
  | Except.ok r => r
  | Except.error msg => ({ success := false, message := msg }, db)

/-- A delivery to `s` fully succeeds when the transport send succeeds, `s`
is a persisted row (so the activity creation is not rejected outright), and
the ledger write succeeds for `s`'s address. -/
def deliveryOk (env : DeliveryEnv) (s : NewsletterSubscriber) : Bool :=
  env.transportOk s.email && s.id.isSome && env.ledgerOk s.email

/-- The updated copy of a targeted subscriber after the send loop: the
`total_emails_sent` counter is bumped exactly when the delivery succeeded. -/
def stepSub (env : DeliveryEnv) (s : NewsletterSubscriber) : NewsletterSubscriber :=
  if deliveryOk env s then { s with total_emails_sent := s.total_emails_sent + 1 }
  else s

/-- Sample subscriber: active, verified, interested in category 7. -/
def subA : NewsletterSubscriber :=
  { id := some 1, email := "a@x.com", status := "active", is_verified := true
    subscription_interests := [7] }

/-- Sample subscriber: active, verified, no interests. -/
def subB : NewsletterSubscriber :=
  { id := some 2, email := "b@x.com", status := "active", is_verified := true }

/-- Sample subscriber: unsubscribed (not base-eligible). -/
def subC : NewsletterSubscriber :=
  { id := some 3, email := "c@x.com", status := "unsubscribed", is_verified := true }

/-- Sample campaign with `send_to_all = False` and no targeting constraints. -/
def campNoConstraints : EmailCampaign :=
  { id := 1, name := "Alpha", send_to_all := false }

/-- Sample campaign with `send_to_all = False`, an interest-tag constraint
(category 7) and an explicit-list constraint (subscriber 2). -/
def campTagAndList : EmailCampaign :=
  { id := 2, name := "Beta", send_to_all := false
    target_categories := [7], target_subscribers := [some 2] }

/-- Sample campaign with `send_to_all = True`. -/
def campAll : EmailCampaign :=
  { id := 4, name := "Gamma" }

/-- Sample campaign with stored counters `sent = 100`, `opened = 40`. -/
def campaign100 : EmailCampaign :=
  { id := 9, name := "Stats", total_sent := 100, total_opened := 40 }

/-- Sample campaign in `scheduled` status. -/
def campScheduled : EmailCampaign :=
  { id := 5, name := "Delta", status := "scheduled" }

/-- Sample database holding the scheduled campaign. -/
def dbSched : DB :=
  { subscribers := [subA], campaigns := [campScheduled], ledger := [] }

/-- Delivery oracle where every transport send and ledger write succeeds. -/
def envAllOk : DeliveryEnv :=
  { transportOk := fun _ => true, ledgerOk := fun _ => true }

/-- Sample draft campaign whose audience resolves to nothing. -/
def campDraftEmpty : EmailCampaign :=
  { id := 6, name := "Eps" }

/-- Sample database whose only subscriber is not base-eligible. -/
def dbEmptyAud : DB :=
  { subscribers := [subC], campaigns := [campDraftEmpty], ledger := [] }

/-- Sample campaign already in `sent` status. -/
def campSentState : EmailCampaign :=
  { id := 7, name := "Zeta", status := "sent" }

/-- Sample database holding the already-sent campaign. -/
def dbSent : DB :=
  { subscribers := [subA], campaigns := [campSentState], ledger := [] }

/-- Delivery oracle where the transport send fails exactly for `b@x.com`. -/
def envFailB : DeliveryEnv :=
  { transportOk := fun e => !(e == "b@x.com"), ledgerOk := fun _ => true }

/-- Sample draft campaign with `send_to_all = True`. -/
def campDraftAll : EmailCampaign :=
  { id := 8, name := "Eta" }

/-- Sample database for a full campaign send over two subscribers. -/
def dbSend : DB :=
  { subscribers := [subA, subB], campaigns := [campDraftAll], ledger := [] }

/-- A per-recipient delivery attempt that satisfies `deliveryOk` appends
exactly one activity row for the recipient. -/
lemma send_email_ok (env : DeliveryEnv) (ledger : List NewsletterActivity)
    (campaign : EmailCampaign) (s : NewsletterSubscriber)
    (h : deliveryOk env s = true) :
    send_email_to_subscriber env ledger campaign s =
      Except.ok (ledger ++ [mkActivity campaign s]) := by
  unfold deliveryOk at h
  simp only [Bool.and_eq_true] at h
  obtain ⟨⟨ht, hsome⟩, hl⟩ := h
  rcases hid : s.id with _ | i
  · rw [hid] at hsome; cases hsome
  · unfold send_email_to_subscriber
    simp [ht, hid, hl]

/-- A per-recipient delivery attempt that fails `deliveryOk` — transport
failure, unsaved recipient, or ledger-write failure — raises. -/
lemma send_email_err (env : DeliveryEnv) (ledger : List NewsletterActivity)
    (campaign : EmailCampaign) (s : NewsletterSubscriber)
    (h : deliveryOk env s = false) :
    ∃ msg, send_email_to_subscriber env ledger campaign s = Except.error msg := by
  unfold deliveryOk at h
  unfold send_email_to_subscriber
  rcases hid : s.id with _ | i <;>
    rcases ht : env.transportOk s.email <;>
      rcases hl : env.ledgerOk s.email <;>
        simp_all

/-- The updated subscriber copies returned by the send loop are, in order,
the `stepSub` images of the targeted subscribers. -/
lemma sendLoop_subscribers (env : DeliveryEnv) (campaign : EmailCampaign) :
    ∀ (subs : List NewsletterSubscriber) (ledger : List NewsletterActivity) (k : Nat),
    (sendLoop env campaign subs ledger k).1 = subs.map (stepSub env) := by
  intro subs
  induction subs with
  | nil => intro ledger k; simp [sendLoop]
  | cons s rest ih =>
    intro ledger k
    by_cases h : deliveryOk env s = true
    · rw [sendLoop, send_email_ok env ledger campaign s h]
      simp [stepSub, h, ih]
    · have hf : deliveryOk env s = false := Bool.eq_false_iff.mpr h
      obtain ⟨msg, hm⟩ := send_email_err env ledger campaign s hf
      rw [sendLoop, hm]
      simp [stepSub, hf, ih]

/-- The ledger after the send loop is the incoming ledger extended by one
`email_sent` activity row per successfully delivered recipient, in order. -/
lemma sendLoop_ledger (env : DeliveryEnv) (campaign : EmailCampaign) :
    ∀ (subs : List NewsletterSubscriber) (ledger : List NewsletterActivity) (k : Nat),
    (sendLoop env campaign subs ledger k).2.1 =
      ledger ++ (subs.filter (deliveryOk env)).map (mkActivity campaign) := by
  intro subs
  induction subs with
  | nil => intro ledger k; simp [sendLoop]
  | cons s rest ih =>
    intro ledger k
    by_cases h : deliveryOk env s = true
    · rw [sendLoop, send_email_ok env ledger campaign s h]
      simp [h, ih, List.filter_cons]
    · have hf : deliveryOk env s = false := Bool.eq_false_iff.mpr h
      obtain ⟨msg, hm⟩ := send_email_err env ledger campaign s hf
      rw [sendLoop, hm]
      simp [hf, ih, List.filter_cons]

/-- The sent counter after the send loop is the incoming counter plus the
number of successfully delivered recipients. -/
lemma sendLoop_count (env : DeliveryEnv) (campaign : EmailCampaign) :
    ∀ (subs : List NewsletterSubscriber) (ledger : List NewsletterActivity) (k : Nat),
    (sendLoop env campaign subs ledger k).2.2 =
      k + (subs.filter (deliveryOk env)).length := by
  intro subs
  induction subs with
  | nil => intro ledger k; simp [sendLoop]
  | cons s rest ih =>
    intro ledger k
    by_cases h : deliveryOk env s = true
    · rw [sendLoop, send_email_ok env ledger campaign s h]
      simp [h, ih, List.filter_cons]
      omega
    · have hf : deliveryOk env s = false := Bool.eq_false_iff.mpr h
      obtain ⟨msg, hm⟩ := send_email_err env ledger campaign s hf
      rw [sendLoop, hm]
      simp [hf, ih, List.filter_cons]

/-- The invalid-state message differs from the empty-audience message, so the
two `ValueError` paths of `send_campaign` can be told apart by message. -/
lemma invalidStateMsg_ne (c : EmailCampaign) :
    invalidStateMsg c ≠ "No subscribers found for this campaign" := by
  intro h
  obtain ⟨l⟩ := c.name
  have h2 := congrArg String.data h
  simp [invalidStateMsg, String.append] at h2

/-- Membership in the resolved audience of a campaign with
`send_to_all = false`: base eligibility plus each targeting constraint that
is present, applied conjunctively. -/
lemma mem_get_target_iff (subs : List NewsletterSubscriber)
    (campaign : EmailCampaign) (s : NewsletterSubscriber)
    (hall : campaign.send_to_all = false) :
    s ∈ get_target_subscribers subs campaign ↔
      s ∈ subs ∧ s.status = "active" ∧ s.is_verified = true ∧
      (campaign.target_categories ≠ [] →
        ∃ i ∈ s.subscription_interests, i ∈ campaign.target_categories) ∧
      (campaign.target_subscribers ≠ [] → s.id ∈ campaign.target_subscribers) := by
  unfold get_target_subscribers
  rcases hc : campaign.target_categories.isEmpty <;>
    rcases hs : campaign.target_subscribers.isEmpty <;>
      simp_all [List.isEmpty_iff, List.mem_filter, List.any_eq_true, and_assoc] <;>
      tauto

/-- With no interest tags and no explicit list, both targeting branches are
skipped and the resolver returns the base-eligible queryset unchanged,
whatever the `send_to_all` flag. -/
lemma get_target_no_constraints (subs : List NewsletterSubscriber)
    (campaign : EmailCampaign)
    (hc : campaign.target_categories = [])
    (hs : campaign.target_subscribers = []) :
    get_target_subscribers subs campaign =
      subs.filter (fun s => s.status == "active" && s.is_verified) := by
  unfold get_target_subscribers
  rcases campaign.send_to_all <;> simp [hc, hs]

/-- Every resolved audience member comes from the underlying subscriber
table. -/
lemma get_target_subscribers_subset {subs : List NewsletterSubscriber}
    {campaign : EmailCampaign} {s : NewsletterSubscriber}
    (h : s ∈ get_target_subscribers subs campaign) : s ∈ subs := by
  unfold get_target_subscribers at h
  by_cases hall : campaign.send_to_all <;>
    simp only [hall, if_pos, if_neg, Bool.false_eq_true, ite_false, ite_true] at h
  · exact (List.mem_filter.mp h).1
  · rcases hc : campaign.target_categories.isEmpty <;>
      rcases hs : campaign.target_subscribers.isEmpty <;>
        simp only [hc, hs, Bool.false_eq_true, ite_false, ite_true] at h <;>
        [skip; skip; skip; skip] <;>
      first
      | exact (List.mem_filter.mp h).1
      | exact (List.mem_filter.mp (List.mem_filter.mp h).1).1
      | exact (List.mem_filter.mp (List.mem_filter.mp (List.mem_filter.mp h).1).1).1

/-- Every resolved audience member satisfies the hard base filter
`status == 'active' AND is_verified == True`. -/
lemma get_target_active_verified {subs : List NewsletterSubscriber}
    {campaign : EmailCampaign} {s : NewsletterSubscriber}
    (h : s ∈ get_target_subscribers subs campaign) :
    s.status = "active" ∧ s.is_verified = true := by
  by_cases hall : campaign.send_to_all = true
  · unfold get_target_subscribers at h
    simp only [hall, ite_true] at h
    have := (List.mem_filter.mp h).2
    simp at this
    tauto
  · have hall2 : campaign.send_to_all = false := by
      rcases h2 : campaign.send_to_all
      · rfl
      · exact absurd h2 hall
    have := (mem_get_target_iff subs campaign s hall2).mp h
    tauto

/-- Claim C1, counterexample: for a campaign whose targeting rule has
`send_to_all = false`, no interest tags and no explicit list, the resolver
returns every base-eligible subscriber, not the empty set: with one active
verified subscriber present the result is nonempty. -/
theorem C1_counterexample :
    campNoConstraints.send_to_all = false ∧
    campNoConstraints.target_categories = [] ∧
    campNoConstraints.target_subscribers = [] ∧
    get_target_subscribers [subA, subB] campNoConstraints ≠ [] := by
  decide

/-- Claim C1, amended: for every campaign whose targeting rule has
`send_to_all = false`, no interest tags, and no explicit subscriber list,
audience resolution returns the full base-eligible set (all active, verified
subscribers) — the same set as `send_to_all = true` — which is a valid
outcome, not an error. -/
theorem C1_no_constraints_full_base (subs : List NewsletterSubscriber)
    (campaign : EmailCampaign)
    (hall : campaign.send_to_all = false)
    (hc : campaign.target_categories = [])
    (hs : campaign.target_subscribers = []) :
    get_target_subscribers subs campaign =
      subs.filter (fun s => s.status == "active" && s.is_verified) :=
  get_target_no_constraints subs campaign hc hs

/-- Claim C1, witness: the amended statement instantiated on a concrete
subscriber table and the no-constraints campaign. -/
theorem C1_no_constraints_full_base_witness :
    campNoConstraints.send_to_all = false ∧
    get_target_subscribers [subA, subB, subC] campNoConstraints =
      [subA, subB, subC].filter (fun s => s.status == "active" && s.is_verified) :=
  ⟨rfl, C1_no_constraints_full_base [subA, subB, subC] campNoConstraints rfl rfl rfl⟩

/-- Claim C4, counterexample: subscriber `subA` is base-eligible and has a
matching interest tag, so under the claimed `elif` semantics it would be in
the audience of `campTagAndList`; the code also applies the explicit-list
constraint (which `subA` fails), resolving the audience to the empty list. -/
theorem C4_counterexample :
    campTagAndList.send_to_all = false ∧
    campTagAndList.target_categories ≠ [] ∧
    subA.status = "active" ∧ subA.is_verified = true ∧
    (∃ i ∈ subA.subscription_interests, i ∈ campTagAndList.target_categories) ∧
    get_target_subscribers [subA, subB] campTagAndList = [] := by
  decide

/-- Claim C4, amended: when `send_to_all` is false the interest-tag
constraint and the explicit-list constraint are applied independently and
conjunctively — each one that is present intersects the base-eligible set,
and when both are present both apply (the explicit-list constraint is applied
even when interest tags are present). -/
theorem C4_targeting_conjunctive (subs : List NewsletterSubscriber)
    (campaign : EmailCampaign) (s : NewsletterSubscriber)
    (hall : campaign.send_to_all = false) :
    s ∈ get_target_subscribers subs campaign ↔
      s ∈ subs ∧ s.status = "active" ∧ s.is_verified = true ∧
      (campaign.target_categories ≠ [] →
        ∃ i ∈ s.subscription_interests, i ∈ campaign.target_categories) ∧
      (campaign.target_subscribers ≠ [] → s.id ∈ campaign.target_subscribers) :=
  mem_get_target_iff subs campaign s hall

/-- Claim C4, witness: the amended characterization instantiated on the
tag-and-list campaign and subscriber `subA`. -/
theorem C4_targeting_conjunctive_witness :
    campTagAndList.send_to_all = false ∧
    (subA ∈ get_target_subscribers [subA, subB] campTagAndList ↔
      subA ∈ [subA, subB] ∧ subA.status = "active" ∧ subA.is_verified = true ∧
      (campTagAndList.target_categories ≠ [] →
        ∃ i ∈ subA.subscription_interests, i ∈ campTagAndList.target_categories) ∧
      (campTagAndList.target_subscribers ≠ [] →
        subA.id ∈ campTagAndList.target_subscribers)) :=
  ⟨rfl, C4_targeting_conjunctive [subA, subB] campTagAndList subA rfl⟩

/-- Claim C5: for every targeting rule, every subscriber in the resolved
audience has `status = 'active'` and `is_verified = true`; no other
subscriber ever appears in the resolved audience. -/
theorem C5_audience_active_verified (subs : List NewsletterSubscriber)
    (campaign : EmailCampaign) (s : NewsletterSubscriber)
    (h : s ∈ get_target_subscribers subs campaign) :
    s.status = "active" ∧ s.is_verified = true :=
  get_target_active_verified h

/-- Claim C5, witness: instantiated on a concrete table containing an
unsubscribed subscriber and the send-to-all campaign. -/
theorem C5_audience_active_verified_witness :
    subA ∈ get_target_subscribers [subA, subC] campAll ∧
    subA.status = "active" ∧ subA.is_verified = true :=
  ⟨by decide, C5_audience_active_verified [subA, subC] campAll subA (by decide)⟩

/-- A campaign rate computed by the model equals the spec-side percentage
of the same two counters. -/
lemma ratePercent_eq (num den : Nat) :
    (if den > 0 then round1 ((num : ℚ) / (den : ℚ) * 100) else 0) =
      specRatePercent num den := by
  rcases Nat.eq_zero_or_pos den with h | h
  · simp [h, specRatePercent]
  · have hne : den ≠ 0 := Nat.pos_iff_ne_zero.mp h
    simp [h, hne, specRatePercent]

/-- Claim C9: every derived metric equals its counter ratio as a percentage
rounded to one decimal place, 0 when the denominator is zero — `open_rate`,
`click_rate` and `unsubscribe_rate` over `sent`, `delivery_rate` over
`recipients`; and on `sent = 100`, `opened = 40` the open rate is `40.0`. -/
theorem C9_metric_rates (c : EmailCampaign) :
    get_open_rate c = specRatePercent c.total_opened c.total_sent ∧
    get_click_rate c = specRatePercent c.total_clicked c.total_sent ∧
    get_unsubscribe_rate c = specRatePercent c.total_unsubscribed c.total_sent ∧
    get_delivery_rate c = specRatePercent c.total_delivered c.total_recipients ∧
    get_open_rate campaign100 = 40 := by
  refine ⟨ratePercent_eq _ _, ratePercent_eq _ _, ratePercent_eq _ _,
    ratePercent_eq _ _, ?_⟩
  have h : get_open_rate campaign100 = round1 ((40 : ℚ) / (100 : ℚ) * 100) := by
    norm_num [get_open_rate, campaign100]
  rw [h]
  norm_num [round1, roundHalfEven]

/-- When the campaign exists but is not in `draft` status, `send_campaign`
returns the invalid-state failure dictionary and leaves the database
untouched. -/
lemma send_campaign_not_draft (env : DeliveryEnv) (db : DB) (now campaign_id : Nat)
    (c : EmailCampaign)
    (hfind : db.campaigns.find? (fun x => x.id == campaign_id) = some c)
    (hst : c.status ≠ "draft") :
    send_campaign env db now campaign_id =
      ({ success := false, message := invalidStateMsg c }, db) := by
  unfold send_campaign send_campaign_body
  rw [hfind]
  have hd : (c.status != "draft") = true := by simp [hst]
  simp [hd]

/-- When the campaign is in `draft` status but the audience resolves to the
empty list, `send_campaign` returns the empty-audience failure dictionary
and leaves the database untouched. -/
lemma send_campaign_empty (env : DeliveryEnv) (db : DB) (now campaign_id : Nat)
    (c : EmailCampaign)
    (hfind : db.campaigns.find? (fun x => x.id == campaign_id) = some c)
    (hdraft : c.status = "draft")
    (hempty : get_target_subscribers db.subscribers c = []) :
    send_campaign env db now campaign_id =
      ({ success := false, message := "No subscribers found for this campaign" }, db) := by
  unfold send_campaign send_campaign_body
  rw [hfind]
  have hd : (c.status != "draft") = false := by simp [hdraft]
  simp [hd, hempty]

/-- Full characterization of a successful `send_campaign` run: the result
dictionary and the three database components, with the per-recipient loop
expressed through `stepSub`, `deliveryOk` and `mkActivity`. -/
lemma send_campaign_success_eq (env : DeliveryEnv) (db : DB) (now campaign_id : Nat)
    (c : EmailCampaign)
    (hfind : db.campaigns.find? (fun x => x.id == campaign_id) = some c)
    (hdraft : c.status = "draft")
    (hne : get_target_subscribers db.subscribers c ≠ []) :
    send_campaign env db now campaign_id =
      ({ success := true
         message := "Campaign sent to " ++
           toString (((get_target_subscribers db.subscribers c).filter
             (deliveryOk env)).length) ++ " subscribers"
         sent_count := some (((get_target_subscribers db.subscribers c).filter
           (deliveryOk env)).length)
         total_recipients := some ((get_target_subscribers db.subscribers c).length) },
       { subscribers := saveSubscribers db.subscribers
           ((get_target_subscribers db.subscribers c).map (stepSub env))
         campaigns := saveCampaign (saveCampaign db.campaigns
             { c with status := "sending",
                      total_recipients := (get_target_subscribers db.subscribers c).length })
           { c with status := "sent",
                    total_recipients := (get_target_subscribers db.subscribers c).length,
                    total_sent := ((get_target_subscribers db.subscribers c).filter
                      (deliveryOk env)).length,
                    sent_at := some now }
         ledger := db.ledger ++ (((get_target_subscribers db.subscribers c).filter
             (deliveryOk env)).map (mkActivity c)) }) := by
  unfold send_campaign send_campaign_body
  rw [hfind]
  have hd : (c.status != "draft") = false := by simp [hdraft]
  have hemp : (get_target_subscribers db.subscribers c).isEmpty = false := by
    simpa [List.isEmpty_iff] using hne
  simp only [hd, Bool.false_eq_true, if_false, hemp, ite_false]
  rw [sendLoop_subscribers, sendLoop_ledger, sendLoop_count]
  simp
  intro a _ _
  rfl

/-- Claim C2, amended: `send_campaign` on an existing campaign fails with the
invalid-state error if and only if the campaign status is not `draft` — a
`scheduled` campaign is also rejected — and such a rejection leaves the
whole database, in particular every campaign counter, at its prior value. -/
theorem C2_invalid_state_iff (env : DeliveryEnv) (db : DB) (now campaign_id : Nat)
    (c : EmailCampaign)
    (hfind : db.campaigns.find? (fun x => x.id == campaign_id) = some c) :
    (((send_campaign env db now campaign_id).1.success = false ∧
      (send_campaign env db now campaign_id).1.message = invalidStateMsg c) ↔
      c.status ≠ "draft") ∧
    (c.status ≠ "draft" → (send_campaign env db now campaign_id).2 = db) := by
  by_cases hst : c.status = "draft"
  · constructor
    · constructor
      · rintro ⟨hsucc, hmsg⟩
        by_cases hemp : get_target_subscribers db.subscribers c = []
        · rw [send_campaign_empty env db now campaign_id c hfind hst hemp] at hmsg
          exact absurd hmsg.symm (invalidStateMsg_ne c)
        · rw [send_campaign_success_eq env db now campaign_id c hfind hst hemp] at hsucc
          simp at hsucc
      · intro h; exact absurd hst h
    · intro h; exact absurd hst h
  · rw [send_campaign_not_draft env db now campaign_id c hfind hst]
    exact ⟨by simp [hst], fun _ => rfl⟩

/-- Claim C2, counterexample: a campaign in `scheduled` status is rejected with
the invalid-state message rather than transitioning to `sending`,
contradicting the claim that `scheduled` is accepted. -/
theorem C2_counterexample :
    campScheduled.status = "scheduled" ∧
    (send_campaign envAllOk dbSched 0 5).1.success = false ∧
    (send_campaign envAllOk dbSched 0 5).1.message =
      "Campaign Delta is not in draft status" ∧
    (send_campaign envAllOk dbSched 0 5).2 = dbSched := by
  decide

/-- Claim C2, witness: the amended statement instantiated on the scheduled
campaign. -/
theorem C2_invalid_state_iff_witness :
    dbSched.campaigns.find? (fun x => x.id == 5) = some campScheduled ∧
    ((((send_campaign envAllOk dbSched 0 5).1.success = false ∧
      (send_campaign envAllOk dbSched 0 5).1.message = invalidStateMsg campScheduled) ↔
      campScheduled.status ≠ "draft") ∧
    (campScheduled.status ≠ "draft" → (send_campaign envAllOk dbSched 0 5).2 = dbSched)) :=
  ⟨by decide, C2_invalid_state_iff envAllOk dbSched 0 5 campScheduled (by decide)⟩

/-- Claim C8: if the resolved recipient set of an existing draft campaign is
empty, `send_campaign` fails with the empty-audience message and the
database — campaign status and all counters — is left unchanged. -/
theorem C8_empty_audience (env : DeliveryEnv) (db : DB) (now campaign_id : Nat)
    (c : EmailCampaign)
    (hfind : db.campaigns.find? (fun x => x.id == campaign_id) = some c)
    (hdraft : c.status = "draft")
    (hempty : get_target_subscribers db.subscribers c = []) :
    (send_campaign env db now campaign_id).1.success = false ∧
    (send_campaign env db now campaign_id).1.message =
      "No subscribers found for this campaign" ∧
    (send_campaign env db now campaign_id).2 = db := by
  rw [send_campaign_empty env db now campaign_id c hfind hdraft hempty]
  exact ⟨rfl, rfl, rfl⟩

/-- Claim C8, witness: instantiated on a draft campaign whose only potential
recipient is not base-eligible. -/
theorem C8_empty_audience_witness :
    campDraftEmpty.status = "draft" ∧
    get_target_subscribers dbEmptyAud.subscribers campDraftEmpty = [] ∧
    ((send_campaign envAllOk dbEmptyAud 0 6).1.success = false ∧
     (send_campaign envAllOk dbEmptyAud 0 6).1.message =
       "No subscribers found for this campaign" ∧
     (send_campaign envAllOk dbEmptyAud 0 6).2 = dbEmptyAud) :=
  ⟨rfl, by decide,
    C8_empty_audience envAllOk dbEmptyAud 0 6 campDraftEmpty (by decide) rfl (by decide)⟩

/-- Every run of `send_test_email` fails and leaves the database untouched:
the synthetic test recipient is never saved, so the activity creation inside
the shared delivery path always raises the unsaved-related-object
`ValueError` (and the transport may have failed even before that); the
`except` handler turns the exception into a `success = False` dictionary. -/
lemma send_test_email_always_fails (env : DeliveryEnv) (db : DB)
    (campaign_id : Nat) (addr : String) :
    (send_test_email env db campaign_id addr).1.success = false ∧
    (send_test_email env db campaign_id addr).2 = db := by
  unfold send_test_email send_test_email_body
  rcases hfind : db.campaigns.find? (fun c => c.id == campaign_id) with _ | c
  · rw [hfind]
    exact ⟨rfl, rfl⟩
  · rw [hfind]
    rcases ht : env.transportOk addr <;>
      simp [send_email_to_subscriber, test_subscriber, ht]

/-- Claim C10: `send_campaign` and `send_test_email` always return a result
dictionary, and its `success` flag is `true` exactly on the non-error
paths — for a campaign send, campaign found in `draft` with a nonempty
audience; a test send always fails (its ledger write always raises on the
unsaved synthetic recipient) — so every failure is reported as
`success = false` rather than by a propagating exception. -/
theorem C10_service_totality (env : DeliveryEnv) (db : DB) (now campaign_id : Nat)
    (addr : String) :
    ((send_campaign env db now campaign_id).1.success = true ↔
      ∃ c, db.campaigns.find? (fun x => x.id == campaign_id) = some c ∧
        c.status = "draft" ∧ get_target_subscribers db.subscribers c ≠ []) ∧
    (send_test_email env db campaign_id addr).1.success = false := by
  constructor
  · rcases hfind : db.campaigns.find? (fun x => x.id == campaign_id) with _ | c
    · unfold send_campaign send_campaign_body
      rw [hfind]
      simp
    · constructor
      · intro hsucc
        by_cases hdraft : c.status = "draft"
        · by_cases hemp : get_target_subscribers db.subscribers c = []
          · rw [send_campaign_empty env db now campaign_id c hfind hdraft hemp] at hsucc
            simp at hsucc
          · exact ⟨c, hfind, hdraft, hemp⟩
        · rw [send_campaign_not_draft env db now campaign_id c hfind hdraft] at hsucc
          simp at hsucc
      · rintro ⟨c2, hc2, hdraft, hne⟩
        have : c2 = c := by rw [hfind] at hc2; exact (Option.some.inj hc2).symm
        subst this
        rw [send_campaign_success_eq env db now campaign_id c2 hfind hdraft hne]
  · exact (send_test_email_always_fails env db campaign_id addr).1

/-- Claim C3: the claim describes the intended test-send behaviour, but the
feature is broken in the code — the synthetic recipient is never saved, so
the `email_sent` activity creation inside the shared delivery path always
raises the unsaved-related-object `ValueError` and `send_test_email` never
succeeds (its success-returning branch is unreachable).  It does write no
activity record, update no counters and leave every campaign unchanged; at
the failing input (existing campaign `7` in `sent` status, address
`t@x.com`, all oracles succeeding) the result is `success = false` with the
`ValueError` message and an untouched database, where the claim promised
success. -/
theorem C3_test_send_broken :
    (∀ (env : DeliveryEnv) (db : DB) (campaign_id : Nat) (addr : String),
      (send_test_email env db campaign_id addr).1.success = false ∧
      (send_test_email env db campaign_id addr).2 = db) ∧
    (send_test_email envAllOk dbSent 7 "t@x.com").1.success = false ∧
    (send_test_email envAllOk dbSent 7 "t@x.com").1.message =
      "save() prohibited to prevent data loss due to unsaved related object 'subscriber'." ∧
    (send_test_email envAllOk dbSent 7 "t@x.com").2 = dbSent :=
  ⟨fun env db campaign_id addr => send_test_email_always_fails env db campaign_id addr,
   by decide, by decide, by decide⟩

/-- Claim C7: a completed send over an audience of `n` recipients with `k`
successful deliveries ends with a saved campaign in status `sent` with
`sent_at` set, `total_recipients = n` and `total_sent = k`, the number of
`email_sent` activity records for the campaign grows by exactly `k`, and `k
≤ n`. -/
theorem C7_send_completion (env : DeliveryEnv) (db : DB) (now campaign_id : Nat)
    (c : EmailCampaign)
    (hfind : db.campaigns.find? (fun x => x.id == campaign_id) = some c)
    (hdraft : c.status = "draft")
    (hne : get_target_subscribers db.subscribers c ≠ []) :
    (send_campaign env db now campaign_id).1.success = true ∧
    (send_campaign env db now campaign_id).1.sent_count =
      some (((get_target_subscribers db.subscribers c).filter (deliveryOk env)).length) ∧
    (send_campaign env db now campaign_id).1.total_recipients =
      some ((get_target_subscribers db.subscribers c).length) ∧
    (∃ c2, (send_campaign env db now campaign_id).2.campaigns =
        saveCampaign (saveCampaign db.campaigns
          { c with status := "sending",
                   total_recipients := (get_target_subscribers db.subscribers c).length }) c2 ∧
      c2.id = c.id ∧ c2.status = "sent" ∧ c2.sent_at = some now ∧
      c2.total_recipients = (get_target_subscribers db.subscribers c).length ∧
      c2.total_sent =
        ((get_target_subscribers db.subscribers c).filter (deliveryOk env)).length) ∧
    ((get_target_subscribers db.subscribers c).filter (deliveryOk env)).length ≤
      (get_target_subscribers db.subscribers c).length ∧
    ((send_campaign env db now campaign_id).2.ledger.filter
        (fun a => a.campaign_id == c.id && a.activity_type == "email_sent")).length =
      (db.ledger.filter
        (fun a => a.campaign_id == c.id && a.activity_type == "email_sent")).length +
      ((get_target_subscribers db.subscribers c).filter (deliveryOk env)).length := by
  rw [send_campaign_success_eq env db now campaign_id c hfind hdraft hne]
  refine ⟨rfl, rfl, rfl, ⟨_, rfl, rfl, rfl, rfl, rfl, rfl⟩,
    List.length_filter_le _ _, ?_⟩
  rw [List.filter_append, List.length_append]
  congr 1
  have hall : (((get_target_subscribers db.subscribers c).filter
      (deliveryOk env)).map (mkActivity c)).filter
        (fun a => a.campaign_id == c.id && a.activity_type == "email_sent") =
      ((get_target_subscribers db.subscribers c).filter
        (deliveryOk env)).map (mkActivity c) := by
    rw [List.filter_eq_self]
    intro a ha
    obtain ⟨t, _, rfl⟩ := List.mem_map.mp ha
    simp [mkActivity]
  rw [hall, List.length_map]

/-- Claim C7, witness: a send over two recipients where the transport fails for
one ends with `success = true`, `sent_count = 1` and `total_recipients = 2`. -/
theorem C7_send_completion_witness :
    (send_campaign envFailB dbSend 3 8).1.success = true ∧
    (send_campaign envFailB dbSend 3 8).1.sent_count = some 1 ∧
    (send_campaign envFailB dbSend 3 8).1.total_recipients = some 2 := by
  have h := C7_send_completion envFailB dbSend 3 8 campDraftAll (by decide) rfl (by decide)
  refine ⟨h.1, ?_, ?_⟩
  · rw [h.2.1]; decide
  · rw [h.2.2.1]; decide

/-- The per-recipient update never changes the subscriber primary key. -/
lemma stepSub_id (env : DeliveryEnv) (s : NewsletterSubscriber) :
    (stepSub env s).id = s.id := by
  unfold stepSub; split <;> rfl

/-- The per-recipient update never changes the subscriber email. -/
lemma stepSub_email (env : DeliveryEnv) (s : NewsletterSubscriber) :
    (stepSub env s).email = s.email := by
  unfold stepSub; split <;> rfl

/-- The resolved audience is a sublist of the subscriber table. -/
lemma get_target_sublist (subs : List NewsletterSubscriber)
    (campaign : EmailCampaign) :
    List.Sublist (get_target_subscribers subs campaign) subs := by
  unfold get_target_subscribers
  split
  · exact List.filter_sublist _
  · split <;> split <;>
      first
      | exact List.filter_sublist _
      | exact (List.filter_sublist _).trans (List.filter_sublist _)
      | exact ((List.filter_sublist _).trans (List.filter_sublist _)).trans
          (List.filter_sublist _)

/-- When subscriber ids are duplicate-free, looking up a targeted subscriber id
among the updated copies finds exactly that subscriber updated copy. -/
lemma find?_map_stepSub (env : DeliveryEnv) :
    ∀ (subs : List NewsletterSubscriber) (s : NewsletterSubscriber),
    s ∈ subs → (subs.map (fun t => t.id)).Nodup →
    (subs.map (stepSub env)).find? (fun u => u.id == s.id) = some (stepSub env s)
  | [], s, hmem, _ => absurd hmem (List.not_mem_nil s)
  | t :: rest, s, hmem, hnd => by
    have hnd2 : t.id ∉ rest.map (fun t => t.id) ∧
        (rest.map (fun t => t.id)).Nodup := by
      rw [List.map_cons, List.nodup_cons] at hnd
      exact hnd
    rcases List.mem_cons.mp hmem with rfl | hrest
    · rw [List.map_cons, List.find?_cons_of_pos _ (by simp [stepSub_id])]
    · have hne : (stepSub env t).id ≠ s.id := by
        rw [stepSub_id]
        intro he
        exact hnd2.1 (he ▸ List.mem_map.mpr ⟨s, hrest, rfl⟩)
      rw [List.map_cons, List.find?_cons_of_neg _ (by simpa using hne)]
      exact find?_map_stepSub env rest s hrest hnd2.2

/-- Claim C6: a failed delivery to one recipient (transport or ledger write) is
isolated — the send still reports success, the failed recipient is not
counted in `sent_count`, no activity record carries that recipient email,
that subscriber row is unchanged in the saved table, and every other
successfully delivered recipient still gets its activity record. -/
theorem C6_failure_isolated (env : DeliveryEnv) (db : DB) (now campaign_id : Nat)
    (c : EmailCampaign) (s : NewsletterSubscriber)
    (hfind : db.campaigns.find? (fun x => x.id == campaign_id) = some c)
    (hdraft : c.status = "draft")
    (hs : s ∈ get_target_subscribers db.subscribers c)
    (hfail : deliveryOk env s = false)
    (hids : (db.subscribers.map (fun t => t.id)).Nodup)
    (hemails : (db.subscribers.map (fun t => t.email)).Nodup) :
    (send_campaign env db now campaign_id).1.success = true ∧
    ((send_campaign env db now campaign_id).1.sent_count =
      some (((get_target_subscribers db.subscribers c).filter (deliveryOk env)).length) ∧
      s ∉ (get_target_subscribers db.subscribers c).filter (deliveryOk env)) ∧
    (send_campaign env db now campaign_id).2.ledger =
      db.ledger ++ (((get_target_subscribers db.subscribers c).filter
        (deliveryOk env)).map (mkActivity c)) ∧
    (∀ r ∈ (send_campaign env db now campaign_id).2.ledger,
      r ∉ db.ledger → r.subscriber_email ≠ s.email) ∧
    (∀ t ∈ (send_campaign env db now campaign_id).2.subscribers,
      t.id = s.id → t = s) ∧
    (∀ t ∈ get_target_subscribers db.subscribers c, deliveryOk env t = true →
      mkActivity c t ∈ (send_campaign env db now campaign_id).2.ledger) := by
  have hne : get_target_subscribers db.subscribers c ≠ [] := by
    intro h
    rw [h] at hs
    exact (List.not_mem_nil s) hs
  have hsubA : List.Sublist (get_target_subscribers db.subscribers c) db.subscribers :=
    get_target_sublist _ _
  have hsdb : s ∈ db.subscribers := hsubA.subset hs
  rw [send_campaign_success_eq env db now campaign_id c hfind hdraft hne]
  refine ⟨rfl, ⟨rfl, ?_⟩, rfl, ?_, ?_, ?_⟩
  · intro hmem
    rw [(List.mem_filter.mp hmem).2] at hfail
    cases hfail
  · intro r hr hnotold heq
    rcases List.mem_append.mp hr with h | h
    · exact hnotold h
    obtain ⟨t, htmem, rfl⟩ := List.mem_map.mp h
    have htf := List.mem_filter.mp htmem
    have hemA : ((get_target_subscribers db.subscribers c).map
        (fun t => t.email)).Nodup :=
      List.Nodup.sublist (hsubA.map _) hemails
    have hts : t = s := List.inj_on_of_nodup_map hemA htf.1 hs heq
    rw [hts] at htf
    rw [htf.2] at hfail
    cases hfail
  · intro t ht hid
    unfold saveSubscribers at ht
    obtain ⟨t0, ht0, rfl⟩ := List.mem_map.mp ht
    rcases hu : ((get_target_subscribers db.subscribers c).map
        (stepSub env)).find? (fun u => u.id == t0.id) with _ | u
    · simp only [hu] at hid ⊢
      exact List.inj_on_of_nodup_map hids ht0 hsdb hid
    · simp only [hu] at hid ⊢
      have hu_id : u.id = t0.id := by simpa using List.find?_some hu
      have ht0s : t0 = s :=
        List.inj_on_of_nodup_map hids ht0 hsdb (hu_id ▸ hid)
      subst ht0s
      have hndA : ((get_target_subscribers db.subscribers c).map
          (fun t => t.id)).Nodup :=
        List.Nodup.sublist (hsubA.map _) hids
      have hfs := find?_map_stepSub env (get_target_subscribers db.subscribers c)
        t0 hs hndA
      rw [hu] at hfs
      have hust : u = stepSub env t0 := Option.some.inj hfs
      rw [hust]
      unfold stepSub
      rw [if_neg (by simp [hfail])]
  · intro t ht hok
    exact List.mem_append.mpr (Or.inr (List.mem_map.mpr
      ⟨t, List.mem_filter.mpr ⟨ht, hok⟩, rfl⟩))

/-- Claim C6, witness: instantiated on a two-subscriber send where delivery
fails for `subB`. -/
theorem C6_failure_isolated_witness :
    deliveryOk envFailB subB = false ∧
    (send_campaign envFailB dbSend 3 8).1.success = true ∧
    (∀ t ∈ (send_campaign envFailB dbSend 3 8).2.subscribers,
      t.id = subB.id → t = subB) := by
  have h := C6_failure_isolated envFailB dbSend 3 8 campDraftAll subB
    (by decide) rfl (by decide) (by decide) (by decide) (by decide)
  exact ⟨by decide, h.1, h.2.2.2.2.1⟩
